import Mathlib

/-!
Verification development for the WhatsApp lead-notification service
(`app/services/whatsapp_notification_service.py`).

The Python module is embedded shallowly:

* Python dicts with a fixed key set become Lean structures; a key read with
  `dict.get(k, default)` whose key may be absent becomes an `Option` field
  read with `getD`.
* Every call into an external collaborator (the Firestore client, the
  Baileys messaging client, the lawyer configuration, phone formatting) is
  modelled by a field of an `Env` record describing the outcome the
  collaborator produces during this one call; a collaborator call that may
  raise is modelled with `Except String`.
* `try/except` blocks become `match` on those `Except` outcomes, following
  the source's handlers.
* Side effects that the claims observe (store reads, the single
  `lead_ref.update` call, the messages handed to the messaging client) are
  returned explicitly in the output record `DispatchOut`.
* `datetime.now(timezone.utc).isoformat()` and
  `datetime.now().strftime(...)` are modelled as the strings `nowUtc` /
  `nowLocal` carried by `Env` (timestamps are opaque data to every claim).
* Python `str` is modelled by Lean `String`; `s[:200]` is `pySlice s 200`
  (take 200 code points) and `s.isdigit()` is `pyIsDigit` (non-empty and
  all digits; the ASCII fragment of Python's unicode-digit test).
-/

/-- A member of the `answers` list: a dict read with
`answer.get("id", 0)` and `answer.get("answer", "")`, so both keys may be
absent. -/
structure Answer where
  id : Option Int
  answer : Option String
deriving DecidableEq, Repr

/-- `answer.get("id", 0)`. -/
def ansId (a : Answer) : Int := a.id.getD 0

/-- `answer.get("answer", "")`. -/
def ansText (a : Answer) : String := a.answer.getD ""

/-- The `lead_data` argument: only its `"answers"` key is read, via
`lead_data.get("answers", [])`, so the key may be absent. -/
structure LeadData where
  answers : Option (List Answer)
deriving DecidableEq, Repr

/-- `lead_data.get("answers", [])`. -/
def leadAnswers (ld : LeadData) : List Answer := ld.answers.getD []

/-- A lawyer entry from `get_lawyers_for_notification()`: a dict whose
`"name"` and `"phone"` keys are read with `get` and defaults, so both may
be absent. -/
structure Lawyer where
  name : Option String
  phone : Option String
deriving DecidableEq, Repr

/-- The per-recipient entry appended to `results` in
`_send_notifications_to_lawyers` (the optional `"error"` key is `none` on
the non-exception path). -/
structure PerResult where
  lawyer : String
  phone : String
  success : Bool
  error : Option String
  timestamp : String
deriving DecidableEq, Repr

/-- The dict built at the end of `_send_notifications_to_lawyers` on its
normal path (source lines 198-205). -/
structure FanoutOk where
  success : Bool
  notifications_sent : Nat
  total_lawyers : Nat
  results : List PerResult
  lead_id : String
  timestamp : String
deriving DecidableEq, Repr

/-- Return value of `_send_notifications_to_lawyers`: the normal dict, or
the dict `{"success": False, "notifications_sent": 0, "error": str(e)}`
built by its `except` handler. -/
inductive FanoutResult where
  | ok (r : FanoutOk)
  | err (error : String)
deriving DecidableEq, Repr

/-- `notification_result.get("notifications_sent", 0)` as used by the
caller: both return shapes of `_send_notifications_to_lawyers` carry the
key, the error shape with value 0. -/
def FanoutResult.notificationsSent : FanoutResult → Nat
  | .ok r => r.notifications_sent
  | .err _ => 0

/-- `result.get("success")`: `True` only on the normal path with at least
one successful send. -/
def FanoutResult.successFlag : FanoutResult → Bool
  | .ok r => r.success
  | .err _ => false

/-- The key strings of the dict literal at source lines 198-205, in
source order. -/
def fanoutResultKeys : List String :=
  ["success", "notifications_sent", "total_lawyers", "results", "lead_id", "timestamp"]

/-- The lead document, as the service reads it: `was_notified` via
`.get("was_notified", False)` (absent key behaves as `false`),
`notified_at` and `notification_result` via `get` with null/empty
defaults. -/
structure LeadRecord where
  was_notified : Bool
  notified_at : Option String
  notification_result : Option FanoutResult
deriving DecidableEq, Repr

/-- The field set passed to the single `lead_ref.update(...)` call of
`send_new_lead_notification` (source lines 97-102). -/
structure UpdateFields where
  was_notified : Bool
  notified_at : String
  notification_result : FanoutResult
  updated_at : String
deriving DecidableEq, Repr

/-- Return value of `send_new_lead_notification`:
* `earlyFail reason message` is `{"success": False, "reason": reason,
  "message": message}` (the disabled / not-found / already-notified
  returns);
* `fanout r` returns the `_send_notifications_to_lawyers` result verbatim;
* `topError m` is the outer `except` handler's
  `{"success": False, "reason": "error", "message": m,
  "notifications_sent": 0}`. -/
inductive DispatchResult where
  | earlyFail (reason message : String)
  | fanout (r : FanoutResult)
  | topError (message : String)
deriving DecidableEq, Repr

/-- The `"success"` value carried by each return shape of
`send_new_lead_notification`. -/
def DispatchResult.successFlag : DispatchResult → Bool
  | .earlyFail _ _ => false
  | .fanout r => r.successFlag
  | .topError _ => false

/-- The `"reason"` value carried by a return shape of
`send_new_lead_notification`, when the dict has that key (the fan-out
result dicts have none). -/
def DispatchResult.reasonTag : DispatchResult → Option String
  | .earlyFail r _ => some r
  | .fanout _ => none
  | .topError _ => some "error"

/-- Outcomes the external collaborators produce during one service call.
`getDoc` is the outcome of fetching the lead document for the `lead_id` at
hand (`.error` = the client or fetch raised, `.ok none` = document absent,
`.ok (some r)` = document found); `updateRes` the outcome of
`lead_ref.update` if it is called; `lawyers` the outcome of
`get_lawyers_for_notification()`; `formatPhone` the outcome of
`format_lawyer_phone_for_whatsapp`; `send i` the outcome of the `i`-th
call (0-based) to `baileys_service.send_whatsapp_message`. -/
structure Env where
  enabled : Bool
  getDoc : Except String (Option LeadRecord)
  updateRes : Except String Unit
  lawyers : Except String (List Lawyer)
  formatPhone : String → Except String String
  send : Nat → Except String Bool
  nowUtc : String
  nowLocal : String

/-- Python `s[:n]`: the first `n` code points. -/
def pySlice (s : String) (n : Nat) : String := String.mk (s.data.take n)

/-- Python `s.isdigit()`, restricted to its ASCII fragment: non-empty and
every character a decimal digit. -/
def pyIsDigit (s : String) : Bool := !s.data.isEmpty && s.data.all Char.isDigit

/-- The f-string text before the interpolated situation segment. -/
def msgBeforeSituation (lead_name lead_phone area : String) : String :=
  "🚨 *Novo Cliente Recebido!*\n\n👤 *Nome:* " ++ lead_name ++
  "\n📞 *Telefone:* " ++ lead_phone ++
  "\n⚖️ *Área:* " ++ area ++
  "\n📝 *Situação:* "

/-- The f-string text after the interpolated situation segment. -/
def msgAfterSituation (env : Env) (lead_id : String) : String :=
  "\n\n🆔 *Lead ID:* " ++ lead_id ++
  "\n⏰ *Recebido em:* " ++ env.nowLocal ++
  "\n\n_Mensagem enviada automaticamente pelo sistema de captação de leads._"

/-- `notification_message` (source lines 145-155):
`{situation[:200]}{'...' if len(situation) > 200 else ''}` sits between
the fixed prefix and suffix. -/
def notificationMessage (env : Env) (lead_id lead_name lead_phone area situation : String) :
    String :=
  msgBeforeSituation lead_name lead_phone area ++
  (pySlice situation 200 ++ (if 200 < situation.length then "..." else "")) ++
  msgAfterSituation env lead_id

/-- One iteration of the `for lawyer in lawyers` loop, at send-attempt
index `idx`. Returns the entry appended to `results` (`none` when the
lawyer is skipped for an empty phone), the number of messaging-client
calls made (0 or 1), and the `(address, text)` pair handed to the client
when a call was made. -/
def lawyerStep (env : Env) (msg : String) (idx : Nat) (l : Lawyer) :
    Option PerResult × Nat × Option (String × String) :=
  let lawyer_phone := l.phone.getD ""
  if lawyer_phone = "" then
    (none, 0, none)
  else
    match env.formatPhone lawyer_phone with
    | .error e =>
        (some ⟨l.name.getD "Unknown", l.phone.getD "Unknown", false, some e, env.nowUtc⟩,
         0, none)
    | .ok whatsapp_number =>
        match env.send idx with
        | .error e =>
            (some ⟨l.name.getD "Unknown", l.phone.getD "Unknown", false, some e, env.nowUtc⟩,
             1, some (whatsapp_number, msg))
        | .ok success =>
            (some ⟨l.name.getD "Advogado", lawyer_phone, success, none, env.nowUtc⟩,
             1, some (whatsapp_number, msg))

/-- The whole `for lawyer in lawyers` loop: accumulated `results`, the
count `successful_notifications`, the next send-attempt index, and the
messages handed to the messaging client, in order. -/
def lawyerLoop (env : Env) (msg : String) :
    List Lawyer → Nat → List PerResult × Nat × Nat × List (String × String)
  | [], idx => ([], 0, idx, [])
  | l :: rest, idx =>
      let (entry, used, sentMsg) := lawyerStep env msg idx l
      let (results, successful, idx', sentMsgs) := lawyerLoop env msg rest (idx + used)
      (entry.toList ++ results,
       (if (entry.getD ⟨"", "", false, none, ""⟩).success then 1 else 0) + successful,
       idx',
       sentMsg.toList ++ sentMsgs)

/-- `_send_notifications_to_lawyers`. Besides the returned dict, the
second component records the `(address, text)` pairs handed to
`baileys_service.send_whatsapp_message`, in order. -/
def sendNotificationsToLawyers (env : Env)
    (lead_id lead_name lead_phone area situation : String) :
    FanoutResult × List (String × String) :=
  match env.lawyers with
  | .error e => (.err e, [])
  | .ok lawyers =>
      let msg := notificationMessage env lead_id lead_name lead_phone area situation
      let (results, successful, _, sentMsgs) := lawyerLoop env msg lawyers 0
      (.ok ⟨decide (0 < successful), successful, lawyers.length, results, lead_id, env.nowUtc⟩,
       sentMsgs)

/-- The four extraction defaults (source lines 68-71). -/
def defaultFields : String × String × String × String :=
  ("Cliente não identificado", "Não informado", "Não informada", "Não detalhada")

/-- Extracted lead information: `(lead_name, lead_phone, area, situation)`
as a structure. -/
structure LeadFields where
  lead_name : String
  lead_phone : String
  area : String
  situation : String
deriving DecidableEq, Repr

/-- One iteration of the `for answer in answers` extraction loop (source
lines 74-85). -/
def extractStep (f : LeadFields) (a : Answer) : LeadFields :=
  if ansId a = 1 then { f with lead_name := ansText a }
  else if ansId a = 2 then { f with area := ansText a }
  else if ansId a = 3 then { f with situation := ansText a }
  else if 4 ≤ ansId a ∧ pyIsDigit (ansText a) then { f with lead_phone := ansText a }
  else f

/-- The whole extraction: defaults overwritten in answer order. -/
def extractFields (answers : List Answer) : LeadFields :=
  answers.foldl extractStep
    ⟨"Cliente não identificado", "Não informado", "Não informada", "Não detalhada"⟩

/-- Observable outcome of one `send_new_lead_notification` call: the
returned dict, how many lead-document fetches were made, the field set
passed to `lead_ref.update` when that call was made, whether the update
call succeeded (the document actually changed), and the messages handed
to the messaging client. -/
structure DispatchOut where
  result : DispatchResult
  storeReads : Nat
  updateAttempt : Option UpdateFields
  committed : Bool
  sent : List (String × String)
deriving DecidableEq, Repr

/-- `send_new_lead_notification` (source lines 20-116). -/
def send_new_lead_notification (env : Env) (lead_id : String) (lead_data : LeadData) :
    DispatchOut :=
  if !env.enabled then
    ⟨.earlyFail "whatsapp_disabled"
        "WhatsApp notifications are disabled via environment variable",
     0, none, false, []⟩
  else
    match env.getDoc with
    | .error e => ⟨.topError e, 1, none, false, []⟩
    | .ok none =>
        ⟨.earlyFail "lead_not_found" ("Lead " ++ lead_id ++ " not found"),
         1, none, false, []⟩
    | .ok (some lead_record) =>
        if lead_record.was_notified then
          ⟨.earlyFail "already_notified" ("Lead " ++ lead_id ++ " was already notified"),
           1, none, false, []⟩
        else
          let f := extractFields (leadAnswers lead_data)
          let fr :=
            sendNotificationsToLawyers env lead_id f.lead_name f.lead_phone f.area f.situation
          if 0 < fr.1.notificationsSent then
            let fields : UpdateFields := ⟨true, env.nowUtc, fr.1, env.nowUtc⟩
            match env.updateRes with
            | .ok _ => ⟨.fanout fr.1, 1, some fields, true, fr.2⟩
            | .error _ => ⟨.fanout fr.1, 1, some fields, false, fr.2⟩
          else
            ⟨.fanout fr.1, 1, none, false, fr.2⟩

/-- Return value of `check_notification_status`:
* `notFound` is `{"exists": False, "was_notified": False, "message":
  "Lead not found"}`;
* `found` is the dict of source lines 239-245 (`notification_result`
  defaulting to the empty dict is `none`);
* `err` is the handler's `{"exists": False, "was_notified": False,
  "error": e}`. -/
inductive CheckResult where
  | notFound
  | found (was_notified : Bool) (notified_at : Option String)
      (notification_result : Option FanoutResult) (lead_id : String)
  | err (error : String)
deriving DecidableEq, Repr

/-- The `"exists"` value of each `check_notification_status` return
shape. -/
def CheckResult.existsFlag : CheckResult → Bool
  | .notFound => false
  | .found _ _ _ _ => true
  | .err _ => false

/-- The `"was_notified"` value of each `check_notification_status` return
shape. -/
def CheckResult.wasNotified : CheckResult → Bool
  | .notFound => false
  | .found w _ _ _ => w
  | .err _ => false

/-- `check_notification_status` (source lines 216-253). -/
def check_notification_status (env : Env) (lead_id : String) : CheckResult :=
  match env.getDoc with
  | .error e => .err e
  | .ok none => .notFound
  | .ok (some r) => .found r.was_notified r.notified_at r.notification_result lead_id

/-- `reset_notification_status` (source lines 256-282): true iff the
store client was obtained and the update call returned, false when either
raised. -/
def reset_notification_status (env : Env) (lead_id : String) : Bool :=
  match env.updateRes with
  | .ok _ => true
  | .error _ => false

/-- The text of the last answer in `answers` satisfying `p`, or `dflt`
when none does. The extraction loop of `send_new_lead_notification` is
proved equal to four instances of this (its rules overwrite on every
match, so the last match wins). -/
def lastMatchText (p : Answer → Bool) (dflt : String) (answers : List Answer) : String :=
  ((answers.filter p).getLast?.map ansText).getD dflt

/-- Shorthand for the four fields `send_new_lead_notification` extracts
from its `lead_data` argument. -/
def fieldsOf (ld : LeadData) : LeadFields := extractFields (leadAnswers ld)

/-- A collaborator environment: feature enabled, lead document present
and already notified, empty lawyer list, every collaborator call
succeeding. -/
def envA : Env where
  enabled := true
  getDoc := .ok (some { was_notified := true, notified_at := some "T-1",
                        notification_result := none })
  updateRes := .ok ()
  lawyers := .ok []
  formatPhone := fun p => .ok ("55" ++ p ++ "@s.whatsapp.net")
  send := fun _ => .ok true
  nowUtc := "2026-02-03T04:05:06+00:00"
  nowLocal := "03/02/2026 às 04:05"

/-- `envA` with the feature flag off. -/
def envDisabled : Env := { envA with enabled := false }

/-- `envA` with the lead document absent. -/
def envNotFound : Env := { envA with getDoc := .ok none }

/-- An environment for a fresh lead with one configured lawyer whose send
succeeds, but whose bookkeeping update raises. -/
def envB : Env :=
  { envA with
    getDoc := .ok (some { was_notified := false, notified_at := none,
                          notification_result := none })
    updateRes := .error "update failed"
    lawyers := .ok [{ name := some "Dr. A", phone := some "11988887777" }] }

/-- A concrete `lead_data` payload with the four conventional answers. -/
def ldB : LeadData :=
  ⟨some [⟨some 1, some "Ana"⟩, ⟨some 2, some "Penal"⟩,
         ⟨some 3, some "Disputa"⟩, ⟨some 4, some "11999999999"⟩]⟩

/-- The fan-out aggregate produced for `ldB` under `envB`. -/
def nrB : FanoutResult :=
  (sendNotificationsToLawyers envB "L1" (fieldsOf ldB).lead_name (fieldsOf ldB).lead_phone
    (fieldsOf ldB).area (fieldsOf ldB).situation).1

/-- The messages handed to the messaging client for `ldB` under `envB`. -/
def msgsB : List (String × String) :=
  (sendNotificationsToLawyers envB "L1" (fieldsOf ldB).lead_name (fieldsOf ldB).lead_phone
    (fieldsOf ldB).area (fieldsOf ldB).situation).2

/-- A concrete answers list: name, area and situation present, no
numeric-phone answer. -/
def ansW : List Answer :=
  [⟨some 1, some "Ana"⟩, ⟨some 2, some "Penal"⟩, ⟨some 3, some "Briga"⟩]

/-- A 201-character situation text. -/
def s201 : String := String.mk (List.replicate 201 'x')

/-! ## Extraction lemmas -/

theorem extractFields_concat (l : List Answer) (a : Answer) :
    extractFields (l ++ [a]) = extractStep (extractFields l) a := by
  unfold extractFields
  rw [List.foldl_append]
  rfl

theorem extractStep_fields (f : LeadFields) (a : Answer) :
    extractStep f a =
      ⟨if ansId a = 1 then ansText a else f.lead_name,
       if 4 ≤ ansId a ∧ pyIsDigit (ansText a) = true then ansText a else f.lead_phone,
       if ansId a = 2 then ansText a else f.area,
       if ansId a = 3 then ansText a else f.situation⟩ := by
  by_cases h1 : ansId a = 1
  · have h2 : ¬(ansId a = 2) := by omega
    have h3 : ¬(ansId a = 3) := by omega
    have h4 : ¬(4 ≤ ansId a) := by omega
    simp [extractStep, h1, h2, h3, h4]
  · by_cases h2 : ansId a = 2
    · have h3 : ¬(ansId a = 3) := by omega
      have h4 : ¬(4 ≤ ansId a) := by omega
      simp [extractStep, h1, h2, h3, h4]
    · by_cases h3 : ansId a = 3
      · have h4 : ¬(4 ≤ ansId a) := by omega
        simp [extractStep, h1, h2, h3, h4]
      · by_cases h4 : 4 ≤ ansId a ∧ pyIsDigit (ansText a) = true
        · simp [extractStep, h1, h2, h3, h4]
        · simp [extractStep, h1, h2, h3, h4]

theorem lastMatchText_concat (p : Answer → Bool) (d : String) (l : List Answer) (a : Answer) :
    lastMatchText p d (l ++ [a]) =
      if p a then ansText a else lastMatchText p d l := by
  by_cases h : p a
  · simp [lastMatchText, List.filter_append, h, List.getLast?_concat]
  · simp [lastMatchText, List.filter_append, h]

theorem extractFields_eq_lastMatch (answers : List Answer) :
    extractFields answers =
      ⟨lastMatchText (fun a => decide (ansId a = 1)) "Cliente não identificado" answers,
       lastMatchText (fun a => decide (4 ≤ ansId a) && pyIsDigit (ansText a))
         "Não informado" answers,
       lastMatchText (fun a => decide (ansId a = 2)) "Não informada" answers,
       lastMatchText (fun a => decide (ansId a = 3)) "Não detalhada" answers⟩ := by
  induction answers using List.reverseRecOn with
  | nil => rfl
  | append_singleton l a ih =>
      rw [extractFields_concat, ih, extractStep_fields,
        lastMatchText_concat, lastMatchText_concat, lastMatchText_concat, lastMatchText_concat]
      simp [Bool.and_eq_true, decide_eq_true_eq]

theorem lastMatchText_of_no_match (p : Answer → Bool) (d : String) (answers : List Answer)
    (h : ∀ a ∈ answers, ¬ p a = true) : lastMatchText p d answers = d := by
  have : answers.filter p = [] := List.filter_eq_nil_iff.mpr h
  simp [lastMatchText, this]

theorem lastMatchText_of_single (p : Answer → Bool) (d : String) (answers : List Answer)
    (a : Answer) (h : answers.filter p = [a]) : lastMatchText p d answers = ansText a := by
  simp [lastMatchText, h]

theorem lastMatchText_of_last (p : Answer → Bool) (d : String) (l₁ l₂ : List Answer)
    (a : Answer) (hpa : p a = true) (hl₂ : ∀ b ∈ l₂, ¬ p b = true) :
    lastMatchText p d (l₁ ++ a :: l₂) = ansText a := by
  have h₂ : l₂.filter p = [] := List.filter_eq_nil_iff.mpr hl₂
  have : (l₁ ++ a :: l₂).filter p = l₁.filter p ++ [a] := by
    rw [List.filter_append, List.filter_cons]
    simp [hpa, h₂]
  simp [lastMatchText, this, List.getLast?_concat]

/-! ## Claim theorems: field extraction -/

/-- C6: the extraction loop maps the answer with id 1 to the lead name,
id 2 to the legal area, id 3 to the situation, and an answer with id ≥ 4
and numeric text to the lead phone; every field with no matching answer
keeps its literal placeholder string, so extraction never fails. -/
theorem extraction_convention (answers : List Answer) :
    (∀ a, answers.filter (fun b => decide (ansId b = 1)) = [a] →
        (extractFields answers).lead_name = ansText a) ∧
    (∀ a, answers.filter (fun b => decide (ansId b = 2)) = [a] →
        (extractFields answers).area = ansText a) ∧
    (∀ a, answers.filter (fun b => decide (ansId b = 3)) = [a] →
        (extractFields answers).situation = ansText a) ∧
    (∀ a, answers.filter (fun b => decide (4 ≤ ansId b) && pyIsDigit (ansText b)) = [a] →
        (extractFields answers).lead_phone = ansText a) ∧
    ((∀ a ∈ answers, ansId a ≠ 1) →
        (extractFields answers).lead_name = "Cliente não identificado") ∧
    ((∀ a ∈ answers, ansId a ≠ 2) →
        (extractFields answers).area = "Não informada") ∧
    ((∀ a ∈ answers, ansId a ≠ 3) →
        (extractFields answers).situation = "Não detalhada") ∧
    ((∀ a ∈ answers, ¬(4 ≤ ansId a ∧ pyIsDigit (ansText a) = true)) →
        (extractFields answers).lead_phone = "Não informado") := by
  rw [extractFields_eq_lastMatch]
  refine ⟨fun a h => ?_, fun a h => ?_, fun a h => ?_, fun a h => ?_,
    fun h => ?_, fun h => ?_, fun h => ?_, fun h => ?_⟩
  · exact lastMatchText_of_single _ _ _ a h
  · exact lastMatchText_of_single _ _ _ a h
  · exact lastMatchText_of_single _ _ _ a h
  · exact lastMatchText_of_single _ _ _ a h
  · exact lastMatchText_of_no_match _ _ _ (by simpa using h)
  · exact lastMatchText_of_no_match _ _ _ (by simpa using h)
  · exact lastMatchText_of_no_match _ _ _ (by simpa using h)
  · exact lastMatchText_of_no_match _ _ _ (by simpa using h)

/-- Witness for C6 at a concrete answers list: the id-1 answer becomes the
name and the absent numeric answer leaves the phone placeholder. -/
theorem extraction_convention_witness :
    (extractFields ansW).lead_name = "Ana" ∧
    (extractFields ansW).lead_phone = "Não informado" :=
  ⟨(extraction_convention ansW).1 ⟨some 1, some "Ana"⟩ (by decide),
   (extraction_convention ansW).2.2.2.2.2.2.2 (by decide)⟩

/-- C9: `send_new_lead_notification` does not need the answers key in
`lead_data`: an absent key behaves exactly like an empty answers list, and
the empty list leaves all four extracted fields at their placeholders. -/
theorem missing_answers_key (env : Env) (lead_id : String) :
    send_new_lead_notification env lead_id ⟨none⟩ =
      send_new_lead_notification env lead_id ⟨some []⟩ ∧
    extractFields (leadAnswers ⟨none⟩) =
      ⟨"Cliente não identificado", "Não informado", "Não informada", "Não detalhada"⟩ :=
  ⟨rfl, rfl⟩

/-- C10: when several answers match the same extraction rule, the one
occurring last in the sequence determines the extracted value (shown for
the name rule and the numeric-phone rule). -/
theorem last_match_overrides (l₁ l₂ : List Answer) (a : Answer) :
    (ansId a = 1 → (∀ b ∈ l₂, ansId b ≠ 1) →
        (extractFields (l₁ ++ a :: l₂)).lead_name = ansText a) ∧
    (4 ≤ ansId a → pyIsDigit (ansText a) = true →
        (∀ b ∈ l₂, ¬(4 ≤ ansId b ∧ pyIsDigit (ansText b) = true)) →
        (extractFields (l₁ ++ a :: l₂)).lead_phone = ansText a) := by
  constructor
  · intro ha hl₂
    rw [extractFields_eq_lastMatch]
    exact lastMatchText_of_last _ _ _ _ _ (by simpa using ha) (by simpa using hl₂)
  · intro ha hd hl₂
    rw [extractFields_eq_lastMatch]
    refine lastMatchText_of_last _ _ _ _ _ ?_ ?_
    · simp [ha, hd]
    · intro b hb
      simpa using hl₂ b hb

/-- Witness for C10: a second id-1 answer overrides the first, and a later
numeric answer with id ≥ 4 overrides an earlier one. -/
theorem last_match_overrides_witness :
    (extractFields [⟨some 1, some "Ana"⟩, ⟨some 1, some "Bia"⟩]).lead_name = "Bia" ∧
    (extractFields [⟨some 4, some "111"⟩, ⟨some 5, some "222"⟩]).lead_phone = "222" :=
  ⟨(last_match_overrides [⟨some 1, some "Ana"⟩] [] ⟨some 1, some "Bia"⟩).1
      (by decide) (by decide),
   (last_match_overrides [⟨some 4, some "111"⟩] [] ⟨some 5, some "222"⟩).2
      (by decide) (by decide) (by decide)⟩

/-! ## Claim theorems: dispatch early returns -/

/-- C1: for a lead whose stored record has `was_notified` true, dispatch
returns success false with reason `already_notified`, hands nothing to the
messaging client, and neither attempts nor commits a store update. -/
theorem already_notified_short_circuits (env : Env) (lead_id : String)
    (lead_data : LeadData) (doc : LeadRecord) (hen : env.enabled = true)
    (hdoc : env.getDoc = .ok (some doc)) (hnot : doc.was_notified = true) :
    send_new_lead_notification env lead_id lead_data =
      ⟨.earlyFail "already_notified" ("Lead " ++ lead_id ++ " was already notified"),
       1, none, false, []⟩ ∧
    (send_new_lead_notification env lead_id lead_data).result.successFlag = false := by
  have h : send_new_lead_notification env lead_id lead_data =
      ⟨.earlyFail "already_notified" ("Lead " ++ lead_id ++ " was already notified"),
       1, none, false, []⟩ := by
    unfold send_new_lead_notification
    rw [hen, hdoc]
    simp [hnot]
  exact ⟨h, by rw [h]; rfl⟩

/-- Witness for C1 under `envA`, whose stored lead is already notified. -/
theorem already_notified_short_circuits_witness :
    send_new_lead_notification envA "L1" ⟨none⟩ =
      ⟨.earlyFail "already_notified" "Lead L1 was already notified",
       1, none, false, []⟩ :=
  (already_notified_short_circuits envA "L1" ⟨none⟩
    { was_notified := true, notified_at := some "T-1", notification_result := none }
    rfl rfl rfl).1

/-- C3 counterexample: with the feature flag off, the reason string the
code returns is `whatsapp_disabled`, not the `disabled` the claim
states. -/
theorem disabled_reason_counterexample :
    (send_new_lead_notification envDisabled "L1" ⟨none⟩).result.reasonTag ≠
      some "disabled" ∧
    (send_new_lead_notification envDisabled "L1" ⟨none⟩).result.reasonTag =
      some "whatsapp_disabled" := by
  constructor <;> decide

/-- C3 (amended): with the feature flag off, dispatch returns success
false with reason `whatsapp_disabled` regardless of lead state, and the
store is neither read nor written. -/
theorem disabled_flag_blocks (env : Env) (lead_id : String) (lead_data : LeadData)
    (hen : env.enabled = false) :
    send_new_lead_notification env lead_id lead_data =
      ⟨.earlyFail "whatsapp_disabled"
          "WhatsApp notifications are disabled via environment variable",
       0, none, false, []⟩ := by
  unfold send_new_lead_notification
  rw [hen]
  rfl

/-- Witness for C3 under `envDisabled`. -/
theorem disabled_flag_blocks_witness :
    send_new_lead_notification envDisabled "L1" ⟨none⟩ =
      ⟨.earlyFail "whatsapp_disabled"
          "WhatsApp notifications are disabled via environment variable",
       0, none, false, []⟩ :=
  disabled_flag_blocks envDisabled "L1" ⟨none⟩ rfl

/-- C4 counterexample: for an absent lead document, the reason string the
code returns is `lead_not_found`, not the `not_found` the claim states. -/
theorem not_found_reason_counterexample :
    (send_new_lead_notification envNotFound "L1" ⟨none⟩).result.reasonTag ≠
      some "not_found" ∧
    (send_new_lead_notification envNotFound "L1" ⟨none⟩).result.reasonTag =
      some "lead_not_found" := by
  constructor <;> decide

/-- C4 (amended): for a lead id with no stored record, dispatch returns
success false with reason `lead_not_found` and hands nothing to the
messaging client. -/
theorem missing_lead_blocks (env : Env) (lead_id : String) (lead_data : LeadData)
    (hen : env.enabled = true) (hdoc : env.getDoc = .ok none) :
    send_new_lead_notification env lead_id lead_data =
      ⟨.earlyFail "lead_not_found" ("Lead " ++ lead_id ++ " not found"),
       1, none, false, []⟩ := by
  unfold send_new_lead_notification
  rw [hen, hdoc]
  rfl

/-- Witness for C4 under `envNotFound`. -/
theorem missing_lead_blocks_witness :
    send_new_lead_notification envNotFound "L1" ⟨none⟩ =
      ⟨.earlyFail "lead_not_found" "Lead L1 not found", 1, none, false, []⟩ :=
  missing_lead_blocks envNotFound "L1" ⟨none⟩ rfl rfl

/-! ## Claim theorems: commit, aggregate shape, message truncation -/

/-- C2: when at least one recipient delivery succeeded, dispatch passes
`was_notified = true`, `notified_at = now` and the aggregate result to the
store update, and returns that aggregate; when the update call itself
raises, the record stays uncommitted but the very same successful
aggregate is still returned. -/
theorem successful_dispatch_commits (env : Env) (lead_id : String)
    (lead_data : LeadData) (doc : LeadRecord) (nr : FanoutResult)
    (msgs : List (String × String))
    (hen : env.enabled = true)
    (hdoc : env.getDoc = .ok (some doc))
    (hnew : doc.was_notified = false)
    (hfan : sendNotificationsToLawyers env lead_id
        (extractFields (leadAnswers lead_data)).lead_name
        (extractFields (leadAnswers lead_data)).lead_phone
        (extractFields (leadAnswers lead_data)).area
        (extractFields (leadAnswers lead_data)).situation = (nr, msgs))
    (hsent : 0 < nr.notificationsSent) :
    (send_new_lead_notification env lead_id lead_data).updateAttempt =
      some ⟨true, env.nowUtc, nr, env.nowUtc⟩ ∧
    (send_new_lead_notification env lead_id lead_data).result = .fanout nr ∧
    (send_new_lead_notification env lead_id lead_data).sent = msgs ∧
    (∀ e, env.updateRes = .error e →
      (send_new_lead_notification env lead_id lead_data).committed = false) := by
  have h : send_new_lead_notification env lead_id lead_data =
      (match env.updateRes with
       | .ok _ => ⟨.fanout nr, 1, some ⟨true, env.nowUtc, nr, env.nowUtc⟩, true, msgs⟩
       | .error _ =>
          ⟨.fanout nr, 1, some ⟨true, env.nowUtc, nr, env.nowUtc⟩, false, msgs⟩) := by
    unfold send_new_lead_notification
    rw [hen, hdoc]
    simp [hnew, hfan, hsent]
  rcases hu : env.updateRes with e | v <;>
    rw [hu] at h <;> simp [h] <;> intro e he <;> simp [hu] at he

/-- Witness for C2 under `envB`: the one configured send succeeds, the
update call raises, and the successful aggregate is still returned with
nothing committed. -/
theorem successful_dispatch_commits_witness :
    (send_new_lead_notification envB "L1" ldB).updateAttempt =
      some ⟨true, envB.nowUtc, nrB, envB.nowUtc⟩ ∧
    (send_new_lead_notification envB "L1" ldB).result = .fanout nrB ∧
    (send_new_lead_notification envB "L1" ldB).committed = false := by
  have h := successful_dispatch_commits envB "L1" ldB
    { was_notified := false, notified_at := none, notification_result := none }
    nrB msgsB rfl rfl rfl rfl (by decide)
  exact ⟨h.1, h.2.1, h.2.2.2 "update failed" rfl⟩

/-- C5 counterexample: the aggregate dict of
`_send_notifications_to_lawyers` carries the recipient count under the
key `total_lawyers`; it has no `total_recipients` key. -/
theorem total_recipients_key_counterexample :
    ¬ "total_recipients" ∈ fanoutResultKeys ∧ "total_lawyers" ∈ fanoutResultKeys := by
  constructor <;> decide

/-- C5 (amended): whenever the lawyer configuration loads, the aggregate
is the record with fields success, notifications_sent, total_lawyers,
results, lead_id and timestamp, where `total_lawyers` is the number of
configured recipients and success is true iff at least one notification
was sent. -/
theorem fanout_result_shape (env : Env) (lead_id lead_name lead_phone area situation : String)
    (ls : List Lawyer) (hlaw : env.lawyers = .ok ls) :
    ∃ r msgs,
      sendNotificationsToLawyers env lead_id lead_name lead_phone area situation =
        (.ok r, msgs) ∧
      r.total_lawyers = ls.length ∧ r.lead_id = lead_id ∧ r.timestamp = env.nowUtc ∧
      (r.success = true ↔ 0 < r.notifications_sent) := by
  unfold sendNotificationsToLawyers
  rw [hlaw]
  refine ⟨_, _, rfl, rfl, rfl, rfl, ?_⟩
  simp

/-- Witness for C5 under `envB` with its single configured lawyer. -/
theorem fanout_result_shape_witness :
    ∃ r msgs,
      sendNotificationsToLawyers envB "L1" "Ana" "11999999999" "Penal" "Disputa" =
        (.ok r, msgs) ∧
      r.total_lawyers = 1 ∧ r.lead_id = "L1" ∧ r.timestamp = envB.nowUtc ∧
      (r.success = true ↔ 0 < r.notifications_sent) :=
  fanout_result_shape envB "L1" "Ana" "11999999999" "Penal" "Disputa"
    [{ name := some "Dr. A", phone := some "11988887777" }] rfl

/-- C7: in the outgoing message a situation text strictly longer than 200
characters appears as its first 200 characters followed by the ellipsis
marker, while a situation of at most 200 characters appears in full with
nothing appended. -/
theorem situation_truncation (env : Env)
    (lead_id lead_name lead_phone area situation : String) :
    (200 < situation.length →
      notificationMessage env lead_id lead_name lead_phone area situation =
        msgBeforeSituation lead_name lead_phone area ++
          (pySlice situation 200 ++ "...") ++ msgAfterSituation env lead_id) ∧
    (situation.length ≤ 200 →
      notificationMessage env lead_id lead_name lead_phone area situation =
        msgBeforeSituation lead_name lead_phone area ++ situation ++
          msgAfterSituation env lead_id) := by
  constructor
  · intro h
    simp [notificationMessage, h]
  · intro h
    have hs : pySlice situation 200 = situation := by
      unfold pySlice
      rw [List.take_of_length_le (show situation.data.length ≤ 200 from h)]
    have hn : ¬ 200 < situation.length := not_lt.mpr h
    simp [notificationMessage, hn, hs]

set_option maxRecDepth 4000 in
/-- Witness for C7: a 201-character situation is truncated with the
ellipsis, a 5-character one appears verbatim. -/
theorem situation_truncation_witness :
    notificationMessage envA "L1" "N" "P" "A" s201 =
      msgBeforeSituation "N" "P" "A" ++ (pySlice s201 200 ++ "...") ++
        msgAfterSituation envA "L1" ∧
    notificationMessage envA "L1" "N" "P" "A" "curta" =
      msgBeforeSituation "N" "P" "A" ++ "curta" ++ msgAfterSituation envA "L1" :=
  ⟨(situation_truncation envA "L1" "N" "P" "A" s201).1 (by decide),
   (situation_truncation envA "L1" "N" "P" "A" "curta").2 (by decide)⟩

/-! ## Claim theorem: totality of the public operations -/

/-- C8: whatever the collaborators do — the store fetch or update raising,
the lawyer configuration raising, phone formatting or any send raising —
each public operation returns a structured tagged result: dispatch returns
one of the three tagged failure reasons, a fan-out aggregate, or the
outer-handler error result; the status check returns one of its three
shapes; reset returns a boolean. -/
theorem operations_never_raise (env : Env) (lead_id : String) (lead_data : LeadData) :
    ((∃ r m, (send_new_lead_notification env lead_id lead_data).result = .earlyFail r m ∧
        (r = "whatsapp_disabled" ∨ r = "lead_not_found" ∨ r = "already_notified")) ∨
      (∃ fr, (send_new_lead_notification env lead_id lead_data).result = .fanout fr) ∨
      (∃ m, (send_new_lead_notification env lead_id lead_data).result = .topError m)) ∧
    ((∃ e, check_notification_status env lead_id = .err e) ∨
      check_notification_status env lead_id = .notFound ∨
      (∃ w na nr, check_notification_status env lead_id = .found w na nr lead_id)) ∧
    (reset_notification_status env lead_id = true ∨
      reset_notification_status env lead_id = false) := by
  refine ⟨?_, ?_, ?_⟩
  · simp only [send_new_lead_notification]
    split
    · exact Or.inl ⟨_, _, rfl, Or.inl rfl⟩
    · split
      · exact Or.inr (Or.inr ⟨_, rfl⟩)
      · exact Or.inl ⟨_, _, rfl, Or.inr (Or.inl rfl)⟩
      · split
        · exact Or.inl ⟨_, _, rfl, Or.inr (Or.inr rfl)⟩
        · split
          · split
            · exact Or.inr (Or.inl ⟨_, rfl⟩)
            · exact Or.inr (Or.inl ⟨_, rfl⟩)
          · exact Or.inr (Or.inl ⟨_, rfl⟩)
  · unfold check_notification_status
    split
    · exact Or.inl ⟨_, rfl⟩
    · exact Or.inr (Or.inl rfl)
    · exact Or.inr (Or.inr ⟨_, _, _, rfl⟩)
  · unfold reset_notification_status
    split
    · exact Or.inl rfl
    · exact Or.inr rfl
